import Mathlib

/-!
Shallow embedding of `src/main.py` (Azure OpenAI embedding + Qdrant vector
search demo).  External collaborators (the Azure OpenAI client and the Qdrant
client) are modelled as explicit oracles/environments; each orchestration
function of the script becomes a Lean function over those oracles, returning
the calls it issues (its effect trace) together with its Python return value
or raised exception (`Except`).  Python floats are carried opaquely: the
orchestration code performs no arithmetic on vector components or scores, so
they are embedded as `Rat`, exceptions as their message `String`.
-/

/-- A record from `data_objs` in `main`: `{"id": ..., "lyric": ...}`. -/
structure DataObj where
  id : Int
  lyric : String
  deriving DecidableEq

/-- A Qdrant point payload dictionary; the script only ever reads the keys
`"text"` and `"id"`, each possibly absent (`payload.get`). -/
structure Payload where
  text : Option String := none
  id : Option Int := none
  deriving DecidableEq

/-- `models.PointStruct(id=..., vector={"text": ...}, payload=...)`:
the vector dict has the single named field recorded as its first component. -/
structure PointStruct where
  id : Nat
  vector : String × List Rat
  payload : Payload
  deriving DecidableEq

/-- One `qdrant_client.upsert(...)` call with its arguments. -/
structure UpsertCall where
  collection_name : String
  points : List PointStruct
  wait : Bool
  deriving DecidableEq

/-- A raw similarity hit returned by `qdrant_client.search` (payload may be
`None` in Python, hence `Option`). -/
structure ScoredPoint where
  payload : Option Payload
  score : Rat
  deriving DecidableEq

/-- One entry of the list returned by `search_similar`. -/
structure SearchResult where
  lyric : String
  id : Option Int
  score : Rat
  deriving DecidableEq

/-- `add_to_qdrant` (src/main.py lines 138-167), pure part: the single upsert
call it issues.  `points` mirrors the comprehension
`[PointStruct(id=idx, vector={"text": emb}, payload={"text": obj["lyric"], "id": obj["id"]}) for idx, (obj, emb) in enumerate(zip(data_objs, embeddings))]`. -/
def add_to_qdrant (collection_name : String) (data_objs : List DataObj)
    (embeddings : List (List Rat)) : UpsertCall :=
  { collection_name := collection_name
    points := ((data_objs.zip embeddings).enum).map fun p =>
      { id := p.1
        vector := ("text", p.2.2)
        payload := { text := some p.2.1.lyric, id := some p.2.1.id } }
    wait := true }

/-- The list of upsert calls one invocation of `add_to_qdrant` issues:
the body contains exactly one `qdrant_client.upsert` statement. -/
def add_to_qdrant_calls (collection_name : String) (data_objs : List DataObj)
    (embeddings : List (List Rat)) : List UpsertCall :=
  [add_to_qdrant collection_name data_objs embeddings]

/-- `search_similar` (src/main.py lines 169-204).  The Qdrant client is the
oracle `qdrantSearch`, taking the collection name, the named query vector
`("text", query_embedding)` and the limit, and returning the raw hits; the
function projects each hit by
`{"lyric": payload.get("text", ""), "id": payload.get("id"), "score": hit.score}`
with `payload = hit.payload or {}`. -/
def search_similar (qdrantSearch : String → String × List Rat → Nat → List ScoredPoint)
    (collection_name : String) (query_embedding : List Rat) (limit : Nat) :
    List SearchResult :=
  (qdrantSearch collection_name ("text", query_embedding) limit).map fun hit =>
    { lyric := (hit.payload.getD {}).text.getD ""
      id := (hit.payload.getD {}).id
      score := hit.score }

/-- An observable client action performed by `setup_qdrant_collection`:
`get_collections`, `delete_collection`, the two `time.sleep` program points
(the fixed settling sleep after deletion and the exponential-backoff sleep at
the end of a failed non-final attempt), `create_collection`, and the
best-effort `shutil.rmtree` cleanup. -/
inductive Event where
  | getCollections
  | deleteCollection (name : String)
  | sleepSettle
  | sleepBackoff (seconds : Nat)
  | createCollection (name : String) (size : Nat)
  | rmtree (name : String)
  deriving DecidableEq

/-- Outcomes of the Qdrant client calls one attempt of
`setup_qdrant_collection` may perform, in program order: the first
`get_collections` listing, `delete_collection`, `create_collection`, and the
verification `get_collections` listing. -/
structure AttemptEnv where
  listResult : Except String (List String)
  deleteResult : Except String Unit
  createResult : Except String Unit
  verifyResult : Except String (List String)

/-- Outcomes of the best-effort diagnostic dump and on-disk cleanup performed
on the final failed attempt: the diagnostic `get_collections`, whether
`os.path.exists(data_dir)` holds, and the `shutil.rmtree` outcome.  All three
are wrapped in their own try/except blocks and only print. -/
structure FinalEnv where
  diagResult : Except String (List String)
  dirExists : Bool
  rmtreeResult : Except String Unit

/-- Events of the inner try block (src/main.py lines 77-87): list the
collections and, when `collection_name` is among them, delete it and sleep;
any exception here is caught and only produces a warning print. -/
def stepAEvents (collection_name : String) (env : AttemptEnv) : List Event :=
  match env.listResult with
  | Except.error _ => [Event.getCollections]
  | Except.ok collection_names =>
    if collection_name ∈ collection_names then
      match env.deleteResult with
      | Except.error _ => [Event.getCollections, Event.deleteCollection collection_name]
      | Except.ok _ =>
          [Event.getCollections, Event.deleteCollection collection_name, Event.sleepSettle]
    else [Event.getCollections]

/-- One iteration of the retry loop of `setup_qdrant_collection`
(src/main.py lines 75-107): the inner check/delete block, then
`create_collection`, then the verification listing; returns the events
performed and `ok` on verified creation, or the raised exception. -/
def runAttempt (collection_name : String) (vector_size : Nat) (env : AttemptEnv) :
    List Event × Except String Unit :=
  let evA := stepAEvents collection_name env
  match env.createResult with
  | Except.error e => (evA ++ [Event.createCollection collection_name vector_size], Except.error e)
  | Except.ok _ =>
    match env.verifyResult with
    | Except.error e =>
        (evA ++ [Event.createCollection collection_name vector_size, Event.getCollections],
         Except.error e)
    | Except.ok collection_names =>
      if collection_name ∈ collection_names then
        (evA ++ [Event.createCollection collection_name vector_size, Event.getCollections],
         Except.ok ())
      else
        (evA ++ [Event.createCollection collection_name vector_size, Event.getCollections],
         Except.error ("Failed to verify collection " ++ collection_name ++ " creation"))

/-- Events of the final-attempt failure handler (src/main.py lines 109-133):
a best-effort diagnostic `get_collections`, then, when the local data
directory exists, a best-effort `shutil.rmtree`; both only print, and the
original exception is re-raised afterwards. -/
def finalEvents (collection_name : String) (fenv : FinalEnv) : List Event :=
  [Event.getCollections] ++ (if fenv.dirExists then [Event.rmtree collection_name] else [])

/-- The retry loop `for attempt in range(max_retries)` of
`setup_qdrant_collection`, as recursion on the number of remaining
iterations: `attempt` is the current 0-based loop index, and one
remaining iteration encodes `attempt == max_retries - 1`; on a failed
non-final attempt the loop sleeps `2 ** attempt` and continues; on a failed
final attempt it runs the diagnostic/cleanup handler and re-raises. -/
def setupGo (collection_name : String) (vector_size : Nat) (envs : Nat → AttemptEnv)
    (fenv : FinalEnv) : Nat → Nat → List Event × Except String Unit
  | _, 0 => ([], Except.ok ())
  | attempt, 1 =>
    match runAttempt collection_name vector_size (envs attempt) with
    | (ev, Except.ok _) => (ev, Except.ok ())
    | (ev, Except.error e) => (ev ++ finalEvents collection_name fenv, Except.error e)
  | attempt, r + 2 =>
    match runAttempt collection_name vector_size (envs attempt) with
    | (ev, Except.ok _) => (ev, Except.ok ())
    | (ev, Except.error e) =>
      let rest := setupGo collection_name vector_size envs fenv (attempt + 1) (r + 1)
      (ev ++ [Event.sleepBackoff (2 ^ attempt)] ++ rest.1, rest.2)

/-- `setup_qdrant_collection` (src/main.py lines 61-136): run the retry loop
from attempt 0 with `max_retries` iterations; `envs k` gives the client-call
outcomes of attempt `k`.  Returns the full event trace and `ok` on success
or the exception raised after exhausting retries.  With `max_retries = 0`
the Python loop body never runs and the function returns `None`. -/
def setup_qdrant_collection (collection_name : String) (vector_size : Nat)
    (envs : Nat → AttemptEnv) (fenv : FinalEnv) (max_retries : Nat) :
    List Event × Except String Unit :=
  setupGo collection_name vector_size envs fenv 0 max_retries

/-- The duration of a backoff sleep event, `none` for every other event. -/
def backoffDur : Event → Option Nat
  | Event.sleepBackoff d => some d
  | _ => none

/-- The backoff delays slept during a trace, in order: the delay at position
`k - 1` is the one slept just before attempt `k`. -/
def backoffDelays (tr : List Event) : List Nat :=
  tr.filterMap backoffDur

/-- Whether an event is a `create_collection` call; each loop iteration
performs exactly one, so counting them counts the attempts made. -/
def isCreate : Event → Bool
  | Event.createCollection _ _ => true
  | _ => false

/-- The number of provisioning attempts a trace witnesses. -/
def countCreates (tr : List Event) : Nat :=
  (tr.filter isCreate).length

/-- One element of `response.data` of the Azure OpenAI embeddings API. -/
structure EmbDatum where
  embedding : List Rat
  deriving DecidableEq

/-- The response object of `client.embeddings.create`. -/
structure EmbResponse where
  data : List EmbDatum
  deriving DecidableEq

/-- `get_embedding` (src/main.py lines 39-59).  The provider oracle maps
`(input, model)` to the call outcome.  Returns the provider calls issued
(always exactly the one `client.embeddings.create(input=text, model=model_name)`)
and the Python result: the exception re-raised unchanged on provider failure,
`response.data[0].embedding` on success — where indexing an empty `data`
raises an `IndexError` from inside the same try block. -/
def get_embedding (provider : String → String → Except String EmbResponse)
    (text model_name : String) : List (String × String) × Except String (List Rat) :=
  ([(text, model_name)],
    match provider text model_name with
    | Except.error e => Except.error e
    | Except.ok response =>
      match response.data with
      | [] => Except.error "IndexError: list index out of range"
      | d :: _ => Except.ok d.embedding)

/-- The default Qdrant collection name (`QDRANT_COLLECTION` env default). -/
def COLLECTION_NAME : String := "lyrics"

/-- The sample records hard-coded in `main` (src/main.py lines 209-218). -/
def demo_data_objs : List DataObj :=
  [⟨1, "說了再見，才發現再也見不到"⟩, ⟨2, "天涼了，雨下了，妳走了"⟩]

/-- The query string hard-coded in `main`. -/
def demo_query_text : String := "我說再見"

/-- The external world one run of `main` interacts with: the embedding
provider, the per-attempt and final-attempt provisioning environments, the
outcome of the upsert issued by `add_to_qdrant`, and the search oracle.
`modelName` is the `AZURE_OPENAI_MODEL` environment value. -/
structure DemoEnv where
  modelName : String
  provider : String → String → Except String EmbResponse
  attemptEnvs : Nat → AttemptEnv
  finalEnv : FinalEnv
  upsertResult : Except String Unit
  store : String → String × List Rat → Nat → List ScoredPoint

/-- The list comprehension
`[get_embedding(text, MODEL_NAME) for text in texts]`: embeds each text in
order, propagating the first raised exception. -/
def embedAll (provider : String → String → Except String EmbResponse)
    (model_name : String) : List String → Except String (List (List Rat))
  | [] => Except.ok []
  | t :: ts =>
    match (get_embedding provider t model_name).2 with
    | Except.error e => Except.error e
    | Except.ok v =>
      match embedAll provider model_name ts with
      | Except.error e => Except.error e
      | Except.ok vs => Except.ok (v :: vs)

/-- The body of the `try` block of `main` (src/main.py lines 220-246):
embed all lyrics, derive the dimensionality from the first embedding,
provision the collection (`max_retries` defaulting to 3), upsert via
`add_to_qdrant`, embed the query, and search with `limit=2`; any step's
exception propagates out. -/
def mainBody (env : DemoEnv) : Except String (List SearchResult) :=
  match embedAll env.provider env.modelName (demo_data_objs.map DataObj.lyric) with
  | Except.error e => Except.error e
  | Except.ok embedding_array =>
    let embedding_dim := (embedding_array.headD []).length
    match (setup_qdrant_collection COLLECTION_NAME embedding_dim
            env.attemptEnvs env.finalEnv 3).2 with
    | Except.error e => Except.error e
    | Except.ok _ =>
      match env.upsertResult with
      | Except.error e => Except.error e
      | Except.ok _ =>
        match (get_embedding env.provider demo_query_text env.modelName).2 with
        | Except.error e => Except.error e
        | Except.ok query_embedding =>
            Except.ok (search_similar env.store COLLECTION_NAME query_embedding 2)

/-- The console lines printed by the `except` handler of `main`
(src/main.py lines 248-253). -/
def troubleshootingOutput (e : String) : List String :=
  ["Error: " ++ e,
   "Troubleshooting tips:",
   "1. Make sure Ollama is running and the model is downloaded",
   "2. Check your internet connection if using remote models",
   "3. Verify the collection " ++ COLLECTION_NAME ++ " exists in Qdrant"]

/-- The per-result console lines of the success path of `main`
(score formatting elided as opaque text). -/
def formatResults (results : List SearchResult) : List String :=
  results.map fun r => "Lyric: " ++ r.lyric

namespace Demo

/-- `main` (src/main.py lines 206-253): run the demo sequence inside a
`try`/`except Exception` that catches every exception, prints the
troubleshooting hints and returns normally — hence the total return type. -/
def main (env : DemoEnv) : List String :=
  match mainBody env with
  | Except.ok results => formatResults results
  | Except.error e => troubleshootingOutput e

end Demo

/-- An attempt environment whose `create_collection` call always fails:
every provisioning attempt that uses it fails. -/
def failingAttemptEnv : AttemptEnv :=
  { listResult := Except.ok []
    deleteResult := Except.ok ()
    createResult := Except.error "Service unavailable"
    verifyResult := Except.ok [] }

/-- A final-attempt environment whose diagnostic dump succeeds and whose
local data directory does not exist. -/
def quietFinalEnv : FinalEnv :=
  { diagResult := Except.ok [], dirExists := false, rmtreeResult := Except.ok () }

/-- A demo environment whose embedding provider always fails. -/
def failingDemoEnv : DemoEnv :=
  { modelName := "ada"
    provider := fun _ _ => Except.error "APIConnectionError"
    attemptEnvs := fun _ => failingAttemptEnv
    finalEnv := quietFinalEnv
    upsertResult := Except.ok ()
    store := fun _ _ _ => [] }

example :
    (add_to_qdrant "lyrics" [⟨7, "X"⟩, ⟨9, "Y"⟩] [[1], [2]]).points =
      [⟨0, ("text", [1]), ⟨some "X", some 7⟩⟩, ⟨1, ("text", [2]), ⟨some "Y", some 9⟩⟩] := by
  decide

example :
    search_similar (fun _ _ _ => [⟨none, 1⟩, ⟨some ⟨some "a", none⟩, 0⟩]) "c" [1] 5 =
      [⟨"", none, 1⟩, ⟨"a", none, 0⟩] := by
  decide

example :
    backoffDelays (setup_qdrant_collection "c" 3
      (fun _ => ⟨Except.ok [], Except.ok (), Except.error "boom", Except.ok []⟩)
      ⟨Except.ok [], false, Except.ok ()⟩ 3).1 = [1, 2] := by
  decide

theorem points_length (c : String) (r : List DataObj) (es : List (List Rat)) :
    (add_to_qdrant c r es).points.length = min r.length es.length := by
  simp [add_to_qdrant]

theorem points_getElem (c : String) (r : List DataObj) (es : List (List Rat))
    (i : Nat) (hi1 : i < r.length) (hi2 : i < es.length) :
    (add_to_qdrant c r es).points[i]? =
      some { id := i, vector := ("text", es.get ⟨i, hi2⟩),
             payload := { text := some ((r.get ⟨i, hi1⟩).lyric),
                          id := some ((r.get ⟨i, hi1⟩).id) } } := by
  have hz : i < (r.zip es).length := by
    rw [List.length_zip]; exact lt_min hi1 hi2
  simp only [add_to_qdrant, List.getElem?_map, List.getElem?_enum,
    List.getElem?_eq_getElem hz, List.getElem_zip, Option.map_some]
  simp

/-- C1: with `len(records) == len(embeddings)`, `add_to_qdrant` issues exactly
one upsert call, on the given collection with `wait=True`, containing exactly
`len(records)` points, the point at input position `i` carrying identifier `i`
(the zero-based position, not the record's `id` field), the named vector
`("text", embeddings[i])`, and payload `{text: records[i].lyric, id: records[i].id}`. -/
theorem add_to_qdrant_single_upsert (c : String) (r : List DataObj) (es : List (List Rat))
    (h : r.length = es.length) :
    (add_to_qdrant_calls c r es).length = 1 ∧
    ∀ u ∈ add_to_qdrant_calls c r es,
      u.collection_name = c ∧ u.wait = true ∧ u.points.length = r.length ∧
      ∀ i (hi : i < r.length),
        u.points[i]? =
          some { id := i, vector := ("text", es.get ⟨i, h ▸ hi⟩),
                 payload := { text := some ((r.get ⟨i, hi⟩).lyric),
                              id := some ((r.get ⟨i, hi⟩).id) } } := by
  refine ⟨rfl, ?_⟩
  intro u hu
  rw [add_to_qdrant_calls, List.mem_singleton] at hu
  subst hu
  refine ⟨rfl, rfl, ?_, ?_⟩
  · rw [points_length, h, Nat.min_self]
  · intro i hi
    exact points_getElem c r es i hi (h ▸ hi)

theorem add_to_qdrant_single_upsert_witness :
    (add_to_qdrant_calls "lyrics" [⟨7, "X"⟩] [[1, 2]]).length = 1 :=
  (add_to_qdrant_single_upsert "lyrics" [⟨7, "X"⟩] [[1, 2]] rfl).1

/-- C9: when `len(data_objs) ≠ len(embeddings)` the zip in `add_to_qdrant`
silently truncates — no error is raised; the single upsert call carries
exactly `min` of the two lengths many points, paired positionally up to the
shorter length. -/
theorem add_to_qdrant_zip_truncation (c : String) (r : List DataObj) (es : List (List Rat))
    (h : r.length ≠ es.length) :
    (add_to_qdrant_calls c r es).length = 1 ∧
    ∀ u ∈ add_to_qdrant_calls c r es,
      u.points.length = min r.length es.length ∧
      ∀ i (hi1 : i < r.length) (hi2 : i < es.length),
        u.points[i]? =
          some { id := i, vector := ("text", es.get ⟨i, hi2⟩),
                 payload := { text := some ((r.get ⟨i, hi1⟩).lyric),
                              id := some ((r.get ⟨i, hi1⟩).id) } } := by
  refine ⟨rfl, ?_⟩
  intro u hu
  rw [add_to_qdrant_calls, List.mem_singleton] at hu
  subst hu
  exact ⟨points_length c r es, fun i hi1 hi2 => points_getElem c r es i hi1 hi2⟩

theorem add_to_qdrant_zip_truncation_witness :
    (add_to_qdrant "lyrics" [⟨7, "X"⟩, ⟨9, "Y"⟩] [[1]]).points.length = min 2 1 :=
  ((add_to_qdrant_zip_truncation "lyrics" [⟨7, "X"⟩, ⟨9, "Y"⟩] [[1]] (by decide)).2
    (add_to_qdrant "lyrics" [⟨7, "X"⟩, ⟨9, "Y"⟩] [[1]]) (by decide)).1

theorem search_similar_length (store : String → String × List Rat → Nat → List ScoredPoint)
    (c : String) (q : List Rat) (L : Nat) :
    (search_similar store c q L).length = (store c ("text", q) L).length := by
  simp [search_similar]

theorem search_similar_getElem (store : String → String × List Rat → Nat → List ScoredPoint)
    (c : String) (q : List Rat) (L : Nat) (i : Nat)
    (hi : i < (store c ("text", q) L).length) :
    (search_similar store c q L)[i]? =
      some { lyric := (((store c ("text", q) L).get ⟨i, hi⟩).payload.getD {}).text.getD ""
             id := (((store c ("text", q) L).get ⟨i, hi⟩).payload.getD {}).id
             score := ((store c ("text", q) L).get ⟨i, hi⟩).score } := by
  simp only [search_similar, List.getElem?_map, List.getElem?_eq_getElem hi, Option.map_some]
  simp

/-- C3: `search_similar` returns exactly one result per raw hit, in the
order the store reports them, each hit projected to
`{lyric: payload.get("text", ""), id: payload.get("id"), score: hit.score}`
with vectors suppressed; in particular `N < L` hits give exactly `N` results
and an empty hit list gives the empty result list rather than an error. -/
theorem search_similar_projects_hits (store : String → String × List Rat → Nat → List ScoredPoint)
    (c : String) (q : List Rat) (L : Nat) :
    (search_similar store c q L).length = (store c ("text", q) L).length ∧
    (store c ("text", q) L = [] → search_similar store c q L = []) ∧
    ∀ i (hi : i < (store c ("text", q) L).length),
      (search_similar store c q L)[i]? =
        some { lyric := (((store c ("text", q) L).get ⟨i, hi⟩).payload.getD {}).text.getD ""
               id := (((store c ("text", q) L).get ⟨i, hi⟩).payload.getD {}).id
               score := ((store c ("text", q) L).get ⟨i, hi⟩).score } := by
  refine ⟨search_similar_length store c q L, ?_, search_similar_getElem store c q L⟩
  intro hnil
  simp [search_similar, hnil]

theorem search_similar_projects_hits_witness :
    search_similar (fun _ _ _ => []) "lyrics" [1] 5 = [] :=
  (search_similar_projects_hits (fun _ _ _ => []) "lyrics" [1] 5).2.1 rfl

/-- C10: a hit whose payload is `None`, or whose payload lacks the
`"text"` or `"id"` key, does not make `search_similar` fail: the result
falls back to the empty string for the lyric and `None` for the id while
still carrying the hit's score. -/
theorem search_similar_missing_payload_defaults
    (store : String → String × List Rat → Nat → List ScoredPoint)
    (c : String) (q : List Rat) (L : Nat) (i : Nat)
    (hi : i < (store c ("text", q) L).length) :
    (((store c ("text", q) L).get ⟨i, hi⟩).payload = none →
      (search_similar store c q L)[i]? =
        some { lyric := "", id := none,
               score := ((store c ("text", q) L).get ⟨i, hi⟩).score }) ∧
    (∀ p, ((store c ("text", q) L).get ⟨i, hi⟩).payload = some p → p.text = none →
      (search_similar store c q L)[i]? =
        some { lyric := "", id := p.id,
               score := ((store c ("text", q) L).get ⟨i, hi⟩).score }) ∧
    (∀ p, ((store c ("text", q) L).get ⟨i, hi⟩).payload = some p → p.id = none →
      (search_similar store c q L)[i]? =
        some { lyric := p.text.getD "", id := none,
               score := ((store c ("text", q) L).get ⟨i, hi⟩).score }) := by
  refine ⟨?_, ?_, ?_⟩
  · intro hp
    rw [search_similar_getElem store c q L i hi, hp]
    rfl
  · intro p hp ht
    rw [search_similar_getElem store c q L i hi, hp]
    simp [ht]
  · intro p hp hid
    rw [search_similar_getElem store c q L i hi, hp]
    simp [hid]

theorem search_similar_missing_payload_defaults_witness :
    (search_similar (fun _ _ _ => [⟨none, 1⟩]) "lyrics" [1] 5)[0]? =
      some { lyric := "", id := none, score := 1 } :=
  (search_similar_missing_payload_defaults (fun _ _ _ => [⟨none, 1⟩]) "lyrics" [1] 5 0
    (by decide)).1 rfl

/-- C5: a record `{id: 7, lyric: "X"}` ingested at batch position 0 becomes
the stored point with identifier 0 (the position, not 7) and payload
`{text: "X", id: 7}`; any search hit carrying that stored payload projects
back to a result with lyric `"X"`, id `7` and the hit's score. -/
theorem ingest_search_round_trip (c : String) (rest : List DataObj) (e0 : List Rat)
    (es : List (List Rat)) (store : String → String × List Rat → Nat → List ScoredPoint)
    (q : List Rat) (L : Nat) (i : Nat)
    (hi : i < (store c ("text", q) L).length)
    (hp : ((store c ("text", q) L).get ⟨i, hi⟩).payload =
          ((add_to_qdrant c (⟨7, "X"⟩ :: rest) (e0 :: es)).points.head?.map PointStruct.payload)) :
    (add_to_qdrant c (⟨7, "X"⟩ :: rest) (e0 :: es)).points.head? =
      some { id := 0, vector := ("text", e0), payload := { text := some "X", id := some 7 } } ∧
    (search_similar store c q L)[i]? =
      some { lyric := "X", id := some 7,
             score := ((store c ("text", q) L).get ⟨i, hi⟩).score } := by
  have hhead : (add_to_qdrant c (⟨7, "X"⟩ :: rest) (e0 :: es)).points.head? =
      some { id := 0, vector := ("text", e0),
             payload := ({ text := some "X", id := some 7 } : Payload) } := by
    simp [add_to_qdrant, List.enum]
  refine ⟨hhead, ?_⟩
  rw [hhead] at hp
  rw [search_similar_getElem store c q L i hi, hp]
  rfl

theorem backoffDelays_append (l l' : List Event) :
    backoffDelays (l ++ l') = backoffDelays l ++ backoffDelays l' := by
  simp [backoffDelays]

theorem countCreates_append (l l' : List Event) :
    countCreates (l ++ l') = countCreates l + countCreates l' := by
  simp [countCreates]

theorem backoffDelays_stepA (n : String) (env : AttemptEnv) :
    backoffDelays (stepAEvents n env) = [] := by
  unfold stepAEvents
  rcases env.listResult with e | names
  · rfl
  · by_cases hmem : n ∈ names
    · rcases env.deleteResult with e | u <;> simp [hmem, backoffDelays, backoffDur]
    · simp [hmem, backoffDelays, backoffDur]

theorem countCreates_stepA (n : String) (env : AttemptEnv) :
    countCreates (stepAEvents n env) = 0 := by
  unfold stepAEvents
  rcases env.listResult with e | names
  · rfl
  · by_cases hmem : n ∈ names
    · rcases env.deleteResult with e | u <;> simp [hmem, countCreates, isCreate]
    · simp [hmem, countCreates, isCreate]

theorem runAttempt_fst (n : String) (s : Nat) (env : AttemptEnv) :
    (runAttempt n s env).1 = stepAEvents n env ++
      (Event.createCollection n s ::
        (match env.createResult with
         | Except.error _ => []
         | Except.ok _ => [Event.getCollections])) := by
  unfold runAttempt
  rcases env.createResult with e | u
  · rfl
  · rcases env.verifyResult with e | names
    · rfl
    · by_cases hmem : n ∈ names <;> simp [hmem]

theorem backoffDelays_runAttempt (n : String) (s : Nat) (env : AttemptEnv) :
    backoffDelays (runAttempt n s env).1 = [] := by
  rw [runAttempt_fst, backoffDelays_append, backoffDelays_stepA]
  rcases env.createResult with e | u <;> rfl

theorem countCreates_runAttempt (n : String) (s : Nat) (env : AttemptEnv) :
    countCreates (runAttempt n s env).1 = 1 := by
  rw [runAttempt_fst, countCreates_append, countCreates_stepA]
  rcases env.createResult with e | u <;> rfl

theorem backoffDelays_finalEvents (n : String) (fenv : FinalEnv) :
    backoffDelays (finalEvents n fenv) = [] := by
  unfold finalEvents
  by_cases hd : fenv.dirExists <;> simp [hd, backoffDelays, backoffDur]

theorem countCreates_finalEvents (n : String) (fenv : FinalEnv) :
    countCreates (finalEvents n fenv) = 0 := by
  unfold finalEvents
  by_cases hd : fenv.dirExists <;> simp [hd, countCreates, isCreate]

theorem setupGo_all_fail (n : String) (s : Nat) (envs : Nat → AttemptEnv) (fenv : FinalEnv)
    (r : Nat) :
    ∀ a : Nat, (∀ j, j ≤ r → ∃ e, (runAttempt n s (envs (a + j))).2 = Except.error e) →
      backoffDelays (setupGo n s envs fenv a (r + 1)).1 =
        (List.range r).map (fun j => 2 ^ (a + j)) ∧
      countCreates (setupGo n s envs fenv a (r + 1)).1 = r + 1 ∧
      (setupGo n s envs fenv a (r + 1)).2 = (runAttempt n s (envs (a + r))).2 := by
  induction r with
  | zero =>
    intro a h
    obtain ⟨e, he⟩ := h 0 (Nat.le_refl 0)
    rw [Nat.add_zero] at he
    rcases hra : runAttempt n s (envs a) with ⟨tr, res⟩
    have htr : tr = (runAttempt n s (envs a)).1 := by rw [hra]
    have hres : res = Except.error e := by rw [hra] at he; exact he
    subst hres
    rw [show (0 : Nat) + 1 = 1 from rfl]
    simp only [setupGo, hra]
    refine ⟨?_, ?_, ?_⟩
    · rw [backoffDelays_append, htr, backoffDelays_runAttempt, backoffDelays_finalEvents]
      simp
    · rw [countCreates_append, htr, countCreates_runAttempt, countCreates_finalEvents]
    · rw [Nat.add_zero, he]
  | succ r ih =>
    intro a h
    obtain ⟨e, he⟩ := h 0 (Nat.zero_le _)
    rw [Nat.add_zero] at he
    rcases hra : runAttempt n s (envs a) with ⟨tr, res⟩
    have htr : tr = (runAttempt n s (envs a)).1 := by rw [hra]
    have hres : res = Except.error e := by rw [hra] at he; exact he
    subst hres
    have hshift : ∀ j, j ≤ r → ∃ e2, (runAttempt n s (envs (a + 1 + j))).2 = Except.error e2 := by
      intro j hj
      have hh := h (j + 1) (Nat.succ_le_succ hj)
      rwa [show a + (j + 1) = a + 1 + j by omega] at hh
    obtain ⟨ihd, ihc, ihr⟩ := ih (a + 1) hshift
    rw [show r + 1 + 1 = r + 2 from rfl]
    simp only [setupGo, hra]
    refine ⟨?_, ?_, ?_⟩
    · rw [backoffDelays_append, backoffDelays_append, htr, backoffDelays_runAttempt, ihd,
        List.range_succ_eq_map, List.map_cons, List.map_map]
      have hfun : ((fun j => 2 ^ (a + j)) ∘ Nat.succ) = fun j => 2 ^ (a + 1 + j) := by
        funext j
        show 2 ^ (a + (j + 1)) = 2 ^ (a + 1 + j)
        congr 1
        omega
      rw [hfun, Nat.add_zero]
      rfl
    · rw [countCreates_append, countCreates_append, htr, countCreates_runAttempt, ihc]
      have h0 : countCreates [Event.sleepBackoff (2 ^ a)] = 0 := rfl
      rw [h0]
      omega
    · rw [ihr, show a + 1 + r = a + (r + 1) by omega]

/-- C2 counterexample: in a 2-attempt run where every attempt fails, the
delay slept before attempt 1 (0-indexed) is `2^0 = 1` time unit, not `2^1`
as the claim states: the code sleeps `2 ** attempt` after attempt `attempt`
fails, i.e. before attempt `attempt + 1`. -/
theorem backoff_before_attempt_counterexample :
    (backoffDelays (setup_qdrant_collection "lyrics" 3 (fun _ => failingAttemptEnv)
        quietFinalEnv 2).1)[1 - 1]? = some 1 ∧
    ¬ (backoffDelays (setup_qdrant_collection "lyrics" 3 (fun _ => failingAttemptEnv)
        quietFinalEnv 2).1)[1 - 1]? = some (2 ^ 1) := by
  decide

/-- C2 amended: in a run of `setup_qdrant_collection` with `max_retries = m`
attempts in which every attempt fails, the backoff delays are
`2^0, 2^1, ..., 2^(m-2)` in order, i.e. the delay slept before attempt `k`
(0-indexed, `1 ≤ k`) is `2^(k-1)` — equivalently, the delay slept after
failing attempt `k` and before attempt `k+1` is `2^k` time units. -/
theorem backoff_delay_after_attempt (n : String) (s : Nat) (envs : Nat → AttemptEnv)
    (fenv : FinalEnv) (m : Nat) (hm : 0 < m)
    (hfail : ∀ k, k < m → ∃ e, (runAttempt n s (envs k)).2 = Except.error e) :
    backoffDelays (setup_qdrant_collection n s envs fenv m).1 =
      (List.range (m - 1)).map (fun k => 2 ^ k) ∧
    ∀ k, 1 ≤ k → k < m →
      (backoffDelays (setup_qdrant_collection n s envs fenv m).1)[k - 1]? =
        some (2 ^ (k - 1)) := by
  obtain ⟨r, rfl⟩ : ∃ r, m = r + 1 := ⟨m - 1, by omega⟩
  have hall : ∀ j, j ≤ r → ∃ e, (runAttempt n s (envs (0 + j))).2 = Except.error e := by
    intro j hj
    rw [Nat.zero_add]
    exact hfail j (by omega)
  obtain ⟨hd, hc, hres⟩ := setupGo_all_fail n s envs fenv r 0 hall
  have hdelays : backoffDelays (setup_qdrant_collection n s envs fenv (r + 1)).1 =
      (List.range r).map (fun k => 2 ^ k) := by
    rw [setup_qdrant_collection, hd]
    simp
  refine ⟨by simpa using hdelays, ?_⟩
  intro k hk1 hkm
  rw [hdelays, List.getElem?_map, List.getElem?_range (by omega : k - 1 < r)]
  rfl

theorem backoff_delay_after_attempt_witness :
    backoffDelays (setup_qdrant_collection "lyrics" 3 (fun _ => failingAttemptEnv)
        quietFinalEnv 3).1 = (List.range 2).map (fun k => 2 ^ k) :=
  (backoff_delay_after_attempt "lyrics" 3 (fun _ => failingAttemptEnv) quietFinalEnv 3
    (by decide) (fun _ _ => ⟨"Service unavailable", rfl⟩)).1

/-- C4: when every one of the `max_retries` attempts fails,
`setup_qdrant_collection` makes exactly `max_retries` attempts (one
`create_collection` call each — it never loops beyond the bound), its outcome
is exactly the last attempt's raised error, and that outcome is unchanged by
the success or failure of the best-effort diagnostic dump and on-disk
cleanup (the `FinalEnv`). -/
theorem setup_exhausts_retries (n : String) (s : Nat) (envs : Nat → AttemptEnv)
    (fenv : FinalEnv) (m : Nat) (hm : 0 < m)
    (hfail : ∀ k, k < m → ∃ e, (runAttempt n s (envs k)).2 = Except.error e) :
    countCreates (setup_qdrant_collection n s envs fenv m).1 = m ∧
    (setup_qdrant_collection n s envs fenv m).2 = (runAttempt n s (envs (m - 1))).2 ∧
    (∃ e, (setup_qdrant_collection n s envs fenv m).2 = Except.error e) ∧
    (∀ fenv2 : FinalEnv, (setup_qdrant_collection n s envs fenv2 m).2 =
      (setup_qdrant_collection n s envs fenv m).2) := by
  obtain ⟨r, rfl⟩ : ∃ r, m = r + 1 := ⟨m - 1, by omega⟩
  have hall : ∀ j, j ≤ r → ∃ e, (runAttempt n s (envs (0 + j))).2 = Except.error e := by
    intro j hj
    rw [Nat.zero_add]
    exact hfail j (by omega)
  obtain ⟨hd, hc, hres⟩ := setupGo_all_fail n s envs fenv r 0 hall
  rw [Nat.zero_add] at hres
  refine ⟨hc, by simpa using hres, ?_, ?_⟩
  · obtain ⟨e, he⟩ := hfail r (by omega)
    exact ⟨e, by rw [setup_qdrant_collection, hres, he]⟩
  · intro fenv2
    obtain ⟨_, _, hres2⟩ := setupGo_all_fail n s envs fenv2 r 0 hall
    rw [Nat.zero_add] at hres2
    rw [setup_qdrant_collection, setup_qdrant_collection, hres, hres2]

theorem setup_exhausts_retries_witness :
    countCreates (setup_qdrant_collection "lyrics" 3 (fun _ => failingAttemptEnv)
        quietFinalEnv 3).1 = 3 :=
  (setup_exhausts_retries "lyrics" 3 (fun _ => failingAttemptEnv) quietFinalEnv 3
    (by decide) (fun _ _ => ⟨"Service unavailable", rfl⟩)).1

theorem delete_mem_stepA (n : String) (env : AttemptEnv) :
    Event.deleteCollection n ∈ stepAEvents n env ↔
      ∃ names, env.listResult = Except.ok names ∧ n ∈ names := by
  unfold stepAEvents
  rcases hl : env.listResult with e | names
  · simp
  · by_cases hmem : n ∈ names
    · rcases env.deleteResult with e2 | u <;> simp [hmem]
    · simp [hmem]

theorem delete_mem_runAttempt (n : String) (s : Nat) (env : AttemptEnv) :
    Event.deleteCollection n ∈ (runAttempt n s env).1 ↔
      Event.deleteCollection n ∈ stepAEvents n env := by
  rw [runAttempt_fst, List.mem_append]
  rcases env.createResult with e | u <;> simp

/-- C7: within one provisioning attempt, `delete_collection` is called iff
the `get_collections` listing succeeded and contains the collection name;
when it does not (including the empty listing, or a failed listing), no
deletion call is made and the attempt proceeds directly to
`create_collection`. -/
theorem delete_only_when_listed (n : String) (s : Nat) (env : AttemptEnv) :
    (Event.deleteCollection n ∈ (runAttempt n s env).1 ↔
      ∃ names, env.listResult = Except.ok names ∧ n ∈ names) ∧
    (∀ names, env.listResult = Except.ok names → n ∉ names →
      (runAttempt n s env).1.take 2 =
        [Event.getCollections, Event.createCollection n s]) := by
  constructor
  · rw [delete_mem_runAttempt, delete_mem_stepA]
  · intro names hl hnot
    rw [runAttempt_fst]
    unfold stepAEvents
    rw [hl]
    simp [hnot]

theorem delete_only_when_listed_witness :
    (runAttempt "lyrics" 3 failingAttemptEnv).1.take 2 =
      [Event.getCollections, Event.createCollection "lyrics" 3] :=
  (delete_only_when_listed "lyrics" 3 failingAttemptEnv).2 [] rfl (by decide)

/-- C6: `get_embedding` makes exactly one provider call (no retry at this
layer); when the call fails the same exception is re-raised unchanged, and
when it succeeds (with at least one datum) the first embedding of the
response is returned unchanged. -/
theorem get_embedding_single_call (provider : String → String → Except String EmbResponse)
    (text model_name : String) :
    (get_embedding provider text model_name).1 = [(text, model_name)] ∧
    (∀ e, provider text model_name = Except.error e →
      (get_embedding provider text model_name).2 = Except.error e) ∧
    (∀ response d drest, provider text model_name = Except.ok response →
      response.data = d :: drest →
      (get_embedding provider text model_name).2 = Except.ok d.embedding) := by
  refine ⟨rfl, ?_, ?_⟩
  · intro e he
    simp [get_embedding, he]
  · intro response d drest hok hdata
    simp [get_embedding, hok, hdata]

theorem get_embedding_single_call_witness :
    (get_embedding (fun _ _ => Except.error "APIConnectionError") "hello" "ada").2 =
      Except.error "APIConnectionError" :=
  (get_embedding_single_call (fun _ _ => Except.error "APIConnectionError")
    "hello" "ada").2.1 "APIConnectionError" rfl

/-- C8: any exception raised anywhere in the demo sequence is caught by the
top-level handler of `main`, which emits the troubleshooting diagnostics and
returns normally — `Demo.main` is a total function into the printed lines, so
no exception ever propagates to its caller. -/
theorem main_catches_all (env : DemoEnv) :
    (∀ e, mainBody env = Except.error e → Demo.main env = troubleshootingOutput e) ∧
    (∀ results, mainBody env = Except.ok results → Demo.main env = formatResults results) := by
  constructor
  · intro e he
    rw [Demo.main, he]
  · intro results hr
    rw [Demo.main, hr]

theorem main_catches_all_witness :
    Demo.main failingDemoEnv = troubleshootingOutput "APIConnectionError" :=
  (main_catches_all failingDemoEnv).1 "APIConnectionError" rfl

theorem ingest_search_round_trip_witness :
    (add_to_qdrant "lyrics" [⟨7, "X"⟩] [[1]]).points.head? =
      some { id := 0, vector := ("text", [1]),
             payload := { text := some "X", id := some 7 } } ∧
    (search_similar (fun _ _ _ => [⟨some ⟨some "X", some 7⟩, 1⟩]) "lyrics" [2] 5)[0]? =
      some { lyric := "X", id := some 7, score := 1 } :=
  ingest_search_round_trip "lyrics" [] [1] []
    (fun _ _ _ => [⟨some ⟨some "X", some 7⟩, 1⟩]) [2] 5 0 (by decide) (by decide)
